import Mathlib

/-!
Verification development for the slide-deck tool layer (`src/slides_tools.py`).

The Python module is shallowly embedded: the wire representation of a
presentation (slides, page elements, shapes, text runs, paragraph markers)
becomes a family of Lean structures; every tool function becomes a pure Lean
function from the fetched presentation data and the call arguments to the
batch of primitive requests it submits plus the value (or error) it returns.

Modelling conventions, recorded once here:
* Python dictionaries with optional keys become structures with `Option`
  fields; `d.get(k, default)` becomes `Option.getD`.
* Python truthiness of a possibly-missing dictionary (`shape.get('placeholder')`,
  `para_style.get('bullet')`) is modelled by `Option.isSome`; an object that is
  present but has no keys at all does not occur in the wire format modelled.
* Python strings are Lean `String`s; `len` is the code-point count, i.e.
  `String.data.length`; slicing, `strip` and substring tests (`in`) are defined
  below over `String.data`.
* The remote service (network fetch, credential handling, logging) is outside
  the translation layer: each embedded function receives the fetched slide list
  as an argument and returns the batches it would submit via `batchUpdate`.
  Floating-point placement geometry in `add_element` (60% / 40% sizing,
  centering arithmetic) is not modelled; no claim concerns the numeric
  geometry, only which requests are issued.  Per-run character style
  aggregation (`textStyles`) is likewise elided: no claim mentions it.
-/

/-! ## Wire data model (the service's nested representation) -/

/-- A `textRun` entry: only its `content` key is read by the module. -/
structure TextRun where
  content : String
deriving Repr, DecidableEq

/-- A bullet descriptor on a paragraph style (`bullet` key). -/
structure Bullet where
  listId : Option String
  nestingLevel : Option Nat
  glyph : Option String
deriving Repr, DecidableEq

/-- The `style` dictionary of a `paragraphMarker`; only the presence of the
`bullet` key matters to the claims (a marker with no `style` key is modelled
as the all-absent style). -/
structure ParagraphMarkerStyle where
  bullet : Option Bullet
deriving Repr, DecidableEq

/-- A `paragraphMarker` entry of a text body. -/
structure ParagraphMarker where
  style : ParagraphMarkerStyle
deriving Repr, DecidableEq

/-- One entry of `shape.text.textElements`: it may carry a `textRun`, a
`paragraphMarker`, both, or neither (the code tests the two keys
independently). -/
structure TextElement where
  textRun : Option TextRun
  paragraphMarker : Option ParagraphMarker
deriving Repr, DecidableEq

/-- The `text` value of a shape. -/
structure TextBody where
  textElements : List TextElement
deriving Repr, DecidableEq

/-- A `placeholder` value; `type_` models its `type` key. -/
structure Placeholder where
  type_ : Option String
deriving Repr, DecidableEq

/-- A `shape` value: `shapeType` models `shape.get('shapeType', '')` (missing
key collapsed to the empty string, exactly as the code reads it). -/
structure Shape where
  shapeType : String
  text : Option TextBody
  placeholder : Option Placeholder
deriving Repr, DecidableEq

/-- An `image` value. -/
structure Image where
  contentUrl : Option String
deriving Repr, DecidableEq

/-- A `table` value. -/
structure Table where
  rows : Option Nat
  columns : Option Nat
deriving Repr, DecidableEq

/-- A `video` value. -/
structure Video where
  url : Option String
deriving Repr, DecidableEq

/-- The `transform` placement of a page element; only `translateX` /
`translateY` are read. -/
structure Transform where
  translateX : Option Int
  translateY : Option Int
deriving Repr, DecidableEq

/-- A page element: the tagged union the code discovers by probing the keys
`shape` / `image` / `table` / `video` / `elementGroup` in that order.  A group
owns a nested list of children. -/
inductive PageElement where
  | shape (objectId : String) (transform : Option Transform) (s : Shape)
  | image (objectId : String) (i : Image)
  | table (objectId : String) (t : Table)
  | video (objectId : String) (v : Video)
  | elementGroup (objectId : String) (children : List PageElement)
deriving Repr

/-- One slide of the fetched presentation. -/
structure Slide where
  objectId : String
  pageElements : List PageElement
deriving Repr

/-! ## Python string primitives used by the module -/

/-- `lst.strip()` over code points: drop whitespace from both ends. -/
def pyStripList (l : List Char) : List Char :=
  ((l.dropWhile Char.isWhitespace).reverse.dropWhile Char.isWhitespace).reverse

/-- Python `s.strip()`. -/
def pyStrip (s : String) : String := ⟨pyStripList s.data⟩

/-- `needle.isPrefixOf hay` spelled out over code points. -/
def leadsWith : List Char → List Char → Bool
  | [], _ => true
  | _ :: _, [] => false
  | a :: as, b :: bs => a == b && leadsWith as bs

/-- Occurrence of `needle` as a contiguous subsequence of the second list;
Python's `needle in hay` on strings. -/
def subOccurs (needle : List Char) : List Char → Bool
  | [] => needle.isEmpty
  | c :: rest => leadsWith needle (c :: rest) || subOccurs needle rest

/-- Python `needle in hay` for strings. -/
def containsSub (needle hay : String) : Bool := subOccurs needle.data hay.data

/-! ## Element Flattener (`process_element` inside `get_slide`) -/

/-- The flat, agent-facing text record built for a text-capable shape
(the dictionary with `type: 'text'`; the optional `textStyles` /
`paragraphStyles` attachments are elided, see the header note). -/
structure TextRec where
  id : String
  role : String
  text : String
  format : String
  position : Int × Int
deriving Repr, DecidableEq

/-- A simplified element record, the union the flattener emits. -/
inductive Simplified where
  | text (r : TextRec)
  | image (id : String) (url : String)
  | table (id : String) (rows cols : Nat)
  | video (id : String) (url : String)
deriving Repr, DecidableEq

/-- The Python `process_element` return value: `None`, a single record
dictionary, or a list of records (for a group). -/
inductive ProcResult where
  | noRec
  | single (e : Simplified)
  | many (es : List Simplified)
deriving Repr, DecidableEq

/-- Collapse a `process_element` result the way the call sites do
(`if result:` then append / extend): `None` and the empty list contribute
nothing; a record contributes itself; a list contributes its entries. -/
def ProcResult.toList : ProcResult → List Simplified
  | .noRec => []
  | .single e => [e]
  | .many es => es

/-- The text elements of a shape: `shape['text']['textElements']` when the
`text` key is present, the empty scan otherwise. -/
def shapeTextElems (s : Shape) : List TextElement :=
  match s.text with
  | some tb => tb.textElements
  | none => []

/-- Extracted literal content: join of all `textRun.content` strings in order,
then `strip()` (source line 202). -/
def shapeText (s : Shape) : String :=
  pyStrip (String.join ((shapeTextElems s).filterMap (fun te => te.textRun.map TextRun.content)))

/-- Whether one text element carries a bullet descriptor on its paragraph
marker (source lines 173-176). -/
def markerHasBullet (te : TextElement) : Bool :=
  match te.paragraphMarker with
  | some m => m.style.bullet.isSome
  | none => false

/-- `has_bullets`: set while scanning the shape's text elements; stays false
when the shape has no text body. -/
def has_bullets (s : Shape) : Bool := (shapeTextElems s).any markerHasBullet

/-- `placeholder.get('type', '')` after `placeholder = shape.get('placeholder', {})`. -/
def placeholder_type_of (s : Shape) : String :=
  match s.placeholder with
  | some p => p.type_.getD ""
  | none => ""

/-- `is_text_shape` (source lines 206-210): explicit TEXT_BOX type, or a text
body, or a placeholder role. -/
def is_text_shape (s : Shape) : Bool :=
  s.shapeType == "TEXT_BOX" || s.text.isSome || s.placeholder.isSome

/-- Role inference exactly as the source branches (lines 214-223): substring
tests against the placeholder type token, then the TEXT_BOX fallback. -/
def inferRole (pt shape_type : String) : String :=
  if containsSub "TITLE" pt || containsSub "CENTERED_TITLE" pt then "title"
  else if containsSub "BODY" pt || containsSub "SUBTITLE" pt then "body"
  else if shape_type == "TEXT_BOX" then "textbox"
  else "text"

/-- Position block from `page_elem.get('transform', {})` with defaults 0. -/
def posOf (tr : Option Transform) : Int × Int :=
  match tr with
  | some t => (t.translateX.getD 0, t.translateY.getD 0)
  | none => (0, 0)

/-- The record built for an emitted text shape (source lines 232-239). -/
def mkTextRec (oid : String) (tr : Option Transform) (s : Shape) : TextRec :=
  { id := oid
    role := inferRole (placeholder_type_of s) s.shapeType
    text := shapeText s
    format := if has_bullets s then "bullets" else "plain"
    position := posOf tr }

mutual

/-- `process_element` (source lines 105-298): shapes emit one text record when
text-capable and nothing otherwise; images, tables and videos emit one record
each; a group recurses into its children and returns the collected list. -/
def process_element : PageElement → ProcResult
  | .shape oid tr s =>
      if is_text_shape s then .single (.text (mkTextRec oid tr s)) else .noRec
  | .image oid i => .single (.image oid (i.contentUrl.getD ""))
  | .table oid t => .single (.table oid (t.rows.getD 0) (t.columns.getD 0))
  | .video oid v => .single (.video oid (v.url.getD ""))
  | .elementGroup _ children => .many (process_group children)

/-- The child loop of the `elementGroup` branch (source lines 286-294):
append or extend each child's truthy result in order. -/
def process_group : List PageElement → List Simplified
  | [] => []
  | c :: cs => (process_element c).toList ++ process_group cs

end

/-- The records a page element contributes to the flat output. -/
def procList (p : PageElement) : List Simplified := (process_element p).toList

/-- The top-level extraction loop of `get_slide` (source lines 301-309);
textually the same append-or-extend loop as the group branch. -/
def slide_elements : List PageElement → List Simplified
  | [] => []
  | p :: ps => (process_element p).toList ++ slide_elements ps

/-- The value returned by `get_slide` on success. -/
structure SlideResult where
  num : Int
  id : String
  elements : List Simplified
deriving Repr, DecidableEq

/-- `get_slide` (source lines 75-317): validate the 1-indexed slide number
against the fetched slide list, then flatten the selected slide.  A raised
`ValueError` is modelled as `Except.error` with the formatted message. -/
def get_slide (slides : List Slide) (slide_number : Int) : Except String SlideResult :=
  if slide_number < 1 ∨ slide_number > (slides.length : Int) then
    .error ("Slide " ++ toString slide_number ++ " not found (presentation has "
      ++ toString slides.length ++ " slides)")
  else
    let slide := slides.getD (slide_number - 1).toNat ⟨"", []⟩
    .ok ⟨slide_number, slide.objectId, slide_elements slide.pageElements⟩

/-! ## Overview Summarizer (`get_presentation_overview`, source lines 13-72) -/

/-- Within the chosen element's runs, the first whose stripped content is
non-empty (inner loop, source lines 47-52). -/
def first_nonempty_run : List TextElement → Option String
  | [] => none
  | te :: rest =>
      match te.textRun with
      | some r =>
          if (pyStrip r.content).isEmpty then first_nonempty_run rest
          else some (pyStrip r.content)
      | none => first_nonempty_run rest

/-- `text[:50] + ('...' if len(text) > 50 else '')` (source line 51). -/
def pyTrunc (t : String) : String :=
  String.mk (t.data.take 50) ++ (if 50 < t.data.length then "..." else "")

/-- The per-slide summary scan (source lines 43-53).  The loop breaks at the
FIRST element that is a shape with a `text` key, whether or not that element
yields a non-empty run (the `break` on line 53 sits outside the inner loop);
elements that are not shapes, or shapes without text, are passed over. -/
def slide_summary (idx : Nat) : List PageElement → String
  | [] => "Slide " ++ toString idx
  | (.shape _ _ s) :: rest =>
      match s.text with
      | some tb =>
          match first_nonempty_run tb.textElements with
          | some t => pyTrunc t
          | none => "Slide " ++ toString idx
      | none => slide_summary idx rest
  | _ :: rest => slide_summary idx rest

/-- One row of the overview's `slides` list. -/
structure SlideSummary where
  num : Nat
  summary : String
  elements : Nat
deriving Repr, DecidableEq

/-- The overview record returned by `get_presentation_overview`. -/
structure Overview where
  id : String
  title : String
  slide_count : Nat
  slides : List SlideSummary
deriving Repr, DecidableEq

/-- `get_presentation_overview` (source lines 13-72) over the fetched data:
1-indexed slide rows with the scanned summary and the raw element count. -/
def get_presentation_overview (pid title : String) (slides : List Slide) : Overview :=
  { id := pid
    title := title
    slide_count := slides.length
    slides := slides.enum.map fun p =>
      ⟨p.1 + 1, slide_summary (p.1 + 1) p.2.pageElements, p.2.pageElements.length⟩ }

/-! ## Mutation planners and the primitive request vocabulary -/

/-- The primitive requests the module ever places in a `batchUpdate` body.
`deleteTextFromStartIndex` is the `deleteText` request with a
`FROM_START_INDEX` range; creation requests keep the synthesized object id,
the target page and the placement tag (numeric geometry elided, see header). -/
inductive Request where
  | insertText (objectId : String) (text : String) (insertionIndex : Nat)
  | deleteTextFromStartIndex (objectId : String) (startIndex : Nat)
  | createImage (objectId : String) (url : String) (pageObjectId : String) (position : String)
  | createTable (objectId : String) (pageObjectId : String) (rows columns : Nat) (position : String)
  | duplicateObject (objectId : String)
deriving Repr, DecidableEq

/-- What one tool call did: every batch submitted to the service, in order,
and the returned value or raised error. -/
structure CallOutcome (α : Type) where
  batches : List (List Request)
  result : Except String α
deriving Repr

/-- The two requests `update_text` builds (source lines 348-365): insert the
new text at index 0, then delete from index `len(text)` to the end. -/
def update_text_requests (element_id text : String) : List Request :=
  [ .insertText element_id text 0,
    .deleteTextFromStartIndex element_id text.length ]

/-- `update_text` (source lines 324-378).  The function never fetches the
presentation and performs no slide-number validation: it submits its one batch
and reports success regardless of `slide_number`. -/
def update_text (slide_number : Int) (element_id text : String) : CallOutcome Bool :=
  let _ := slide_number
  { batches := [update_text_requests element_id text], result := .ok true }

/-- One entry of the `elements` argument of `replace_slide_elements`; either
key may be missing. -/
structure ElemUpdate where
  id : Option String
  text : Option String
deriving Repr, DecidableEq

/-- The request-building loop of `replace_slide_elements` (source lines
412-436): a pair with both keys contributes the insert/delete pair, any other
entry contributes nothing. -/
def replace_requests : List ElemUpdate → List Request
  | [] => []
  | e :: es =>
      (match e.id, e.text with
       | some i, some t => [Request.insertText i t 0, Request.deleteTextFromStartIndex i t.length]
       | _, _ => []) ++ replace_requests es

/-- `replace_slide_elements` (source lines 381-450): no fetch, no slide-number
validation; the batch is submitted only when non-empty (line 438); the return
reports `updated = len(elements)` over the FULL input list (line 446). -/
def replace_slide_elements (slide_number : Int) (elements : List ElemUpdate) :
    CallOutcome (Bool × Nat) :=
  let _ := slide_number
  { batches := if (replace_requests elements).isEmpty then [] else [replace_requests elements]
    result := .ok (true, elements.length) }

/-- The element specification argument of `add_element`. -/
structure ElementSpec where
  type_ : Option String
  url : Option String
  position : Option String
  rows : Option Nat
  cols : Option Nat
deriving Repr, DecidableEq

/-- Python truthiness of `element.get('url')`: present and non-empty. -/
def pyTruthyStr : Option String → Bool
  | some s => !(s == "")
  | none => false

/-- How an optional string renders inside an f-string (`None` when missing). -/
def pyShowOpt : Option String → String
  | some s => s
  | none => "None"

/-- `add_element` (source lines 453-570): validate the slide number, build the
single creation request for a well-formed image (non-empty URL) or table spec,
submit it when one was built, otherwise raise with no batch submitted. -/
def add_element (slides : List Slide) (slide_number : Int) (element : ElementSpec) :
    CallOutcome String :=
  if slide_number < 1 ∨ slide_number > (slides.length : Int) then
    { batches := [], result := .error ("Slide " ++ toString slide_number ++ " not found") }
  else
    let page_id := (slides.getD (slide_number - 1).toNat ⟨"", []⟩).objectId
    let position := element.position.getD "center"
    let elem_id := "element_" ++ toString slide_number ++ "_" ++ pyShowOpt element.type_
    let requests : List Request :=
      if element.type_ == some "image" && pyTruthyStr element.url then
        [Request.createImage elem_id (element.url.getD "") page_id position]
      else if element.type_ == some "table" then
        [Request.createTable elem_id page_id (element.rows.getD 2) (element.cols.getD 2) position]
      else []
    if requests.isEmpty then
      { batches := [], result := .error "Unsupported element type or missing parameters" }
    else
      { batches := [requests], result := .ok elem_id }

/-- `duplicate_slide` (source lines 573-628): validate the source slide, issue
one `duplicateObject` request for its id, and report `source + 1`.  The source
computes an insertion index from `insert_at` (line 604) but never issues any
move or reorder request, so `insert_at` does not influence the outcome. -/
def duplicate_slide (slides : List Slide) (source_slide insert_at : Int) :
    CallOutcome (Bool × Int) :=
  let _ := insert_at
  if source_slide < 1 ∨ source_slide > (slides.length : Int) then
    { batches := [], result := .error ("Source slide " ++ toString source_slide ++ " not found") }
  else
    let source_slide_id := (slides.getD (source_slide - 1).toNat ⟨"", []⟩).objectId
    { batches := [[Request.duplicateObject source_slide_id]]
      result := .ok (true, source_slide + 1) }

/-! ## Semantics of a text-edit batch over an element's text body

The service applies the requests of one batch in order; a
`FROM_START_INDEX` delete removes everything from its start index to the end
of the body as it stands when the request executes. -/

/-- Apply one request to a text body (code points). -/
def applyRequest (body : List Char) : Request → List Char
  | .insertText _ t i => body.take i ++ t.data ++ body.drop i
  | .deleteTextFromStartIndex _ s => body.take s
  | _ => body

/-- A delete whose range is empty on the current body is a no-op; every other
request counts as an effective operation. -/
def isEffective (body : List Char) : Request → Bool
  | .deleteTextFromStartIndex _ s => decide (s < body.length)
  | _ => true

/-- Number of effective operations when the batch runs in order against the
given initial body. -/
def effectiveOps (body : List Char) : List Request → Nat
  | [] => 0
  | r :: rs => (if isEffective body r then 1 else 0) + effectiveOps (applyRequest body r) rs

/-! ## Spec-side comparison definitions

These follow the wording of the specification sentences under test, to be
compared with the source-derived definitions above. -/

/-- One run's contribution to the summary scan: the stripped content when
non-empty. -/
def run_nonempty (te : TextElement) : Option String :=
  te.textRun.bind (fun r => if (pyStrip r.content).isEmpty then none else some (pyStrip r.content))

/-- The summary as the claim words it: the first non-empty stripped text run
found scanning ALL elements in order (runs in order within each element),
truncated, with the placeholder when no element yields one. -/
def claimedSummary (idx : Nat) (elems : List PageElement) : String :=
  match elems.findSome? (fun e =>
      match e with
      | .shape _ _ s => (shapeTextElems s).findSome? run_nonempty
      | _ => none) with
  | some t => pyTrunc t
  | none => "Slide " ++ toString idx

/-- The amended reading: the scan commits to the FIRST element that is a shape
with a text body; the summary is the first non-empty stripped run of that one
element (truncated), and the placeholder otherwise. -/
def amendedSummary (idx : Nat) (elems : List PageElement) : String :=
  match elems.findSome? (fun e =>
      match e with
      | .shape _ _ s => s.text
      | _ => none) with
  | none => "Slide " ++ toString idx
  | some tb =>
      match tb.textElements.findSome? run_nonempty with
      | none => "Slide " ++ toString idx
      | some t => pyTrunc t

/-- Role inference as the amended claim words it: a placeholder type containing
"TITLE" (which includes "SUBTITLE" and "CENTERED_TITLE") gives `title`;
otherwise containing "BODY" gives `body`; otherwise a TEXT_BOX shape gives
`textbox`; otherwise `text`. -/
def amendedRole (pt shape_type : String) : String :=
  if containsSub "TITLE" pt then "title"
  else if containsSub "BODY" pt then "body"
  else if shape_type == "TEXT_BOX" then "textbox"
  else "text"

/-! ## Helper lemmas -/

lemma leadsWith_append (n l t : List Char) (h : leadsWith n l = true) :
    leadsWith n (l ++ t) = true := by
  induction n generalizing l with
  | nil => simp [leadsWith]
  | cons a as ih =>
      cases l with
      | nil => simp [leadsWith] at h
      | cons b bs =>
          simp only [leadsWith, Bool.and_eq_true] at h
          simpa [leadsWith, h.1] using ih bs h.2

lemma leadsWith_exists (n l : List Char) (h : leadsWith n l = true) :
    ∃ t, l = n ++ t := by
  induction n generalizing l with
  | nil => exact ⟨l, rfl⟩
  | cons a as ih =>
      cases l with
      | nil => simp [leadsWith] at h
      | cons b bs =>
          simp only [leadsWith, Bool.and_eq_true, beq_iff_eq] at h
          obtain ⟨t, ht⟩ := ih bs h.2
          exact ⟨t, by simp [h.1, ht]⟩

lemma subOccurs_nil_needle (l : List Char) : subOccurs [] l = true := by
  cases l <;> simp [subOccurs, leadsWith]

lemma subOccurs_append_right (a b t : List Char) (h : subOccurs a b = true) :
    subOccurs a (b ++ t) = true := by
  induction b with
  | nil =>
      simp only [subOccurs, List.isEmpty_iff] at h
      subst h
      simp [subOccurs_nil_needle]
  | cons c cs ih =>
      simp only [subOccurs, Bool.or_eq_true] at h
      simp only [List.cons_append, subOccurs, Bool.or_eq_true]
      rcases h with h | h
      · exact Or.inl (by simpa using leadsWith_append a (c :: cs) t h)
      · exact Or.inr (ih h)

lemma subOccurs_trans (a b c : List Char) (hab : subOccurs a b = true)
    (hbc : subOccurs b c = true) : subOccurs a c = true := by
  induction c with
  | nil =>
      simp only [subOccurs, List.isEmpty_iff] at hbc
      subst hbc
      simp only [subOccurs, List.isEmpty_iff] at hab
      subst hab
      simp [subOccurs]
  | cons x cs ih =>
      simp only [subOccurs, Bool.or_eq_true] at hbc ⊢
      rcases hbc with h | h
      · obtain ⟨t, ht⟩ := leadsWith_exists b (x :: cs) h
        have := subOccurs_append_right a b t hab
        rw [← ht] at this
        simpa [subOccurs, Bool.or_eq_true] using this
      · exact Or.inr (ih h)

lemma containsSub_trans (a b c : String) (hab : containsSub a b = true)
    (hbc : containsSub b c = true) : containsSub a c = true :=
  subOccurs_trans a.data b.data c.data hab hbc

lemma inferRole_eq_amendedRole (pt st : String) : inferRole pt st = amendedRole pt st := by
  have hcent : containsSub "CENTERED_TITLE" pt = true → containsSub "TITLE" pt = true :=
    fun h => containsSub_trans "TITLE" "CENTERED_TITLE" pt (by decide) h
  have hsub : containsSub "SUBTITLE" pt = true → containsSub "TITLE" pt = true :=
    fun h => containsSub_trans "TITLE" "SUBTITLE" pt (by decide) h
  by_cases hT : containsSub "TITLE" pt = true
  · simp [inferRole, amendedRole, hT]
  · have hc : containsSub "CENTERED_TITLE" pt = false := by
      cases h : containsSub "CENTERED_TITLE" pt
      · rfl
      · exact absurd (hcent h) hT
    have hs : containsSub "SUBTITLE" pt = false := by
      cases h : containsSub "SUBTITLE" pt
      · rfl
      · exact absurd (hsub h) hT
    have hT' : containsSub "TITLE" pt = false := by
      cases h : containsSub "TITLE" pt
      · rfl
      · exact absurd h hT
    simp [inferRole, amendedRole, hT', hc, hs]

lemma process_group_eq_flatMap (cs : List PageElement) :
    process_group cs = cs.flatMap procList := by
  induction cs with
  | nil => simp [process_group]
  | cons c cs ih => simp [process_group, procList, ih]

lemma slide_elements_eq_flatMap (ps : List PageElement) :
    slide_elements ps = ps.flatMap procList := by
  induction ps with
  | nil => simp [slide_elements]
  | cons p ps ih => simp [slide_elements, procList, ih]

lemma first_nonempty_run_eq_findSome (tes : List TextElement) :
    first_nonempty_run tes = tes.findSome? run_nonempty := by
  induction tes with
  | nil => simp [first_nonempty_run]
  | cons te rest ih =>
      cases h : te.textRun with
      | none => simp [first_nonempty_run, List.findSome?_cons, run_nonempty, h, ih]
      | some r =>
          by_cases he : (pyStrip r.content).isEmpty
          · simp [first_nonempty_run, List.findSome?_cons, run_nonempty, h, he, ih]
          · simp [first_nonempty_run, List.findSome?_cons, run_nonempty, h, he]

lemma slide_summary_eq_amended (idx : Nat) (elems : List PageElement) :
    slide_summary idx elems = amendedSummary idx elems := by
  induction elems with
  | nil => simp [slide_summary, amendedSummary]
  | cons e rest ih =>
      cases e with
      | shape oid tr s =>
          cases hs : s.text with
          | none =>
              rw [show slide_summary idx (PageElement.shape oid tr s :: rest)
                    = slide_summary idx rest by simp [slide_summary, hs]]
              rw [ih]
              simp [amendedSummary, List.findSome?_cons, hs]
          | some tb =>
              have h1 : slide_summary idx (PageElement.shape oid tr s :: rest)
                  = (match first_nonempty_run tb.textElements with
                     | some t => pyTrunc t
                     | none => "Slide " ++ toString idx) := by
                simp [slide_summary, hs]
              have h2 : amendedSummary idx (PageElement.shape oid tr s :: rest)
                  = (match List.findSome? run_nonempty tb.textElements with
                     | none => "Slide " ++ toString idx
                     | some t => pyTrunc t) := by
                simp [amendedSummary, List.findSome?_cons, hs]
              rw [h1, h2, first_nonempty_run_eq_findSome]
              cases List.findSome? run_nonempty tb.textElements <;> rfl
      | image oid i =>
          rw [show slide_summary idx (PageElement.image oid i :: rest)
                = slide_summary idx rest by simp [slide_summary]]
          rw [ih]
          simp [amendedSummary, List.findSome?_cons]
      | table oid t =>
          rw [show slide_summary idx (PageElement.table oid t :: rest)
                = slide_summary idx rest by simp [slide_summary]]
          rw [ih]
          simp [amendedSummary, List.findSome?_cons]
      | video oid v =>
          rw [show slide_summary idx (PageElement.video oid v :: rest)
                = slide_summary idx rest by simp [slide_summary]]
          rw [ih]
          simp [amendedSummary, List.findSome?_cons]
      | elementGroup oid children =>
          rw [show slide_summary idx (PageElement.elementGroup oid children :: rest)
                = slide_summary idx rest by simp [slide_summary]]
          rw [ih]
          simp [amendedSummary, List.findSome?_cons]

lemma replace_requests_nil_of_all_bad (es : List ElemUpdate)
    (h : ∀ x ∈ es, x.id = none ∨ x.text = none) : replace_requests es = [] := by
  induction es with
  | nil => simp [replace_requests]
  | cons e rest ih =>
      have he := h e (by simp)
      have hrest : replace_requests rest = [] := ih (fun x hx => h x (by simp [hx]))
      rcases he with hid | htxt
      · simp [replace_requests, hid, hrest]
      · cases hi : e.id with
        | none => simp [replace_requests, hi, hrest]
        | some i => simp [replace_requests, hi, htxt, hrest]

/-! ## Claim theorems -/

/-- C1, counterexample.  The claim predicts that whenever the new text is at
least as long as the original content the delete range is empty, leaving
exactly 1 effective operation.  Against the batch semantics (the delete runs
after the insert, on the post-insert body `newText ++ original`), original
content "ab" (length 2) and new text "abcd" (length 4 ≥ 2) still give a
non-empty delete range: both operations are effective, so the count is 2,
not 1. -/
theorem C1_counterexample :
    "abcd".length ≥ "ab".length ∧
    effectiveOps "ab".data (update_text_requests "e1" "abcd") = 2 ∧
    effectiveOps "ab".data (update_text_requests "e1" "abcd") ≠ 1 := by
  decide

/-- C1, amended.  `update_text` submits exactly one atomic batch of exactly
two primitive operations, in order: insert `newText` at index 0, then delete
from index `length(newText)` through the end of the body.  Because the delete
applies to the post-insert body, its range has the length of the ORIGINAL
content: the delete is empty (1 effective operation) exactly when the original
content is empty, and both operations are effective (2) otherwise — not at the
`length(newText) ≥ L` boundary the claim states. -/
theorem C1_amended_batch_shape (n : Int) (eid t orig : String) :
    (update_text n eid t).batches = [update_text_requests eid t] ∧
    update_text_requests eid t
      = [Request.insertText eid t 0, Request.deleteTextFromStartIndex eid t.length] ∧
    (update_text n eid t).result = .ok true ∧
    effectiveOps orig.data (update_text_requests eid t)
      = if orig.data.length = 0 then 1 else 2 := by
  refine ⟨rfl, rfl, rfl, ?_⟩
  have ht : t.length = t.data.length := rfl
  simp only [update_text_requests, effectiveOps, applyRequest, isEffective,
    List.take_zero, List.drop_zero, List.nil_append, List.length_append,
    decide_eq_true_eq, ht]
  split_ifs <;> omega

/-- C2: a group node itself emits no record; its contribution is exactly the
concatenation, in child order, of the recursively flattened children, and
inside a slide's element list that contribution is spliced in at the group's
position. -/
theorem C2_group_flattening (gid : String) (children pre post : List PageElement) :
    procList (PageElement.elementGroup gid children) = children.flatMap procList ∧
    slide_elements (pre ++ PageElement.elementGroup gid children :: post)
      = slide_elements pre ++ children.flatMap procList ++ slide_elements post := by
  have hg : procList (PageElement.elementGroup gid children) = children.flatMap procList := by
    simp [procList, process_element, ProcResult.toList, process_group_eq_flatMap]
  refine ⟨hg, ?_⟩
  simp [slide_elements_eq_flatMap, hg, List.append_assoc]

/-- C3: a shape emits exactly one text record iff it is text-capable — its
shape type is TEXT_BOX, or it has a text body, or it has a placeholder role —
and this is independent of the extracted text (an empty string still yields
the record); a shape satisfying none of the three emits nothing. -/
theorem C3_shape_emission (oid : String) (tr : Option Transform) (s : Shape) :
    ((∃ rec, procList (PageElement.shape oid tr s) = [Simplified.text rec]) ↔
      (s.shapeType = "TEXT_BOX" ∨ s.text.isSome = true ∨ s.placeholder.isSome = true)) ∧
    (procList (PageElement.shape oid tr s) = [] ↔
      ¬ (s.shapeType = "TEXT_BOX" ∨ s.text.isSome = true ∨ s.placeholder.isSome = true)) := by
  have hcond : (is_text_shape s = true) ↔
      (s.shapeType = "TEXT_BOX" ∨ s.text.isSome = true ∨ s.placeholder.isSome = true) := by
    simp [is_text_shape, or_assoc]
  by_cases h : is_text_shape s = true
  · have hp : procList (PageElement.shape oid tr s) = [Simplified.text (mkTextRec oid tr s)] := by
      simp [procList, process_element, h, ProcResult.toList]
    rw [hp]
    constructor
    · simp [← hcond, h]
    · simp [← hcond, h]
  · have hp : procList (PageElement.shape oid tr s) = [] := by
      simp [procList, process_element, h, ProcResult.toList]
    rw [hp]
    constructor
    · simp [← hcond, h]
    · simp [← hcond, h]

/-- C4, counterexample.  The claim's own rule is substring containment, and
"SUBTITLE" contains "TITLE", so the first branch fires: a shape whose
placeholder type is exactly `SUBTITLE` is emitted with role `title`, not the
role `body` the claim asserts for it (the `SUBTITLE` disjunct of the second
branch is unreachable). -/
theorem C4_counterexample :
    procList (PageElement.shape "s1" none ⟨"", none, some ⟨some "SUBTITLE"⟩⟩)
      = [Simplified.text ⟨"s1", "title", "", "plain", (0, 0)⟩] ∧
    ("title" : String) ≠ "body" := by
  constructor
  · simp only [procList, process_element]
    decide
  · decide

/-- C4, amended.  The emitted role follows substring containment with the
source's branch order: placeholder type containing "TITLE" — which includes
`SUBTITLE` and `CENTERED_TITLE` — gives `title`; otherwise containing "BODY"
gives `body`; otherwise shape type TEXT_BOX gives `textbox`; otherwise `text`.
Stated as: the flattener's shape output is exactly the record built with the
amended role rule. -/
theorem C4_amended_role_inference (oid : String) (tr : Option Transform) (s : Shape) :
    process_element (PageElement.shape oid tr s)
      = (if is_text_shape s then
          ProcResult.single (Simplified.text
            { id := oid
              role := amendedRole (placeholder_type_of s) s.shapeType
              text := shapeText s
              format := if has_bullets s then "bullets" else "plain"
              position := posOf tr })
         else ProcResult.noRec) := by
  simp only [process_element, mkTextRec, inferRole_eq_amendedRole]

/-- A slide's elements for the C5 counterexample: the first text-bearing shape
holds only a whitespace run, a later shape holds the run "Hello". -/
def c5_elems : List PageElement :=
  [ PageElement.shape "a" none ⟨"TEXT_BOX", some ⟨[⟨some ⟨" "⟩, none⟩]⟩, none⟩,
    PageElement.shape "b" none ⟨"TEXT_BOX", some ⟨[⟨some ⟨"Hello"⟩, none⟩]⟩, none⟩ ]

/-- C5, counterexample.  The claim says the summary is the first non-empty
trimmed run found scanning the whole slide, which here is "Hello" on the
second shape.  The code's scan breaks at the FIRST shape that has a text body
(the `break` sits outside the inner run loop), finds only a whitespace run
there, and falls back to the "Slide 1" placeholder. -/
theorem C5_counterexample :
    (get_presentation_overview "p" "t" [⟨"s1", c5_elems⟩]).slides
      = [⟨1, "Slide 1", 2⟩] ∧
    claimedSummary 1 c5_elems = "Hello" ∧
    ("Slide 1" : String) ≠ "Hello" := by
  refine ⟨?_, ?_, ?_⟩ <;> decide

/-- C5, amended.  The summary scan commits to the first element that is a
shape with a text body: within that element the first non-empty
whitespace-trimmed run is chosen (truncated to 50 characters with a trailing
"..." when longer); if there is no such element, or all of that one element's
runs trim to empty, the summary is the "Slide {num}" placeholder — later
elements are never consulted. -/
theorem C5_amended_summary (pid title : String) (slides : List Slide) :
    (get_presentation_overview pid title slides).slides
      = slides.enum.map (fun p =>
          ⟨p.1 + 1, amendedSummary (p.1 + 1) p.2.pageElements, p.2.pageElements.length⟩) := by
  simp only [get_presentation_overview, slide_summary_eq_amended]

/-- C6, counterexample.  `update_text` performs no fetch and no slide-number
validation: called with slide number 0 — out of range for every presentation —
it still reports success and submits its (non-empty) batch, instead of
failing with an out-of-range error and performing no mutation. -/
theorem C6_counterexample :
    (update_text 0 "e1" "new").result = .ok true ∧
    (update_text 0 "e1" "new").batches = [update_text_requests "e1" "new"] ∧
    update_text_requests "e1" "new" ≠ [] := by
  exact ⟨rfl, rfl, by decide⟩

/-- C6, amended.  Only `get_slide`, `add_element` and `duplicate_slide`
validate `1 ≤ n ≤ slideCount` after fetching; for an out-of-range slide number
each of those fails with the range error and submits no batch.  `update_text`
and `replace_slide_elements` never fetch the presentation and never validate:
their outcome is entirely independent of the slide number. -/
theorem C6_amended_validation (slides : List Slide) (n : Int)
    (h : n < 1 ∨ n > (slides.length : Int))
    (eid t : String) (espec : ElementSpec) (ins n' : Int) (ups : List ElemUpdate) :
    (∃ m, get_slide slides n = .error m) ∧
    (add_element slides n espec).batches = [] ∧
    (∃ m, (add_element slides n espec).result = .error m) ∧
    (duplicate_slide slides n ins).batches = [] ∧
    (∃ m, (duplicate_slide slides n ins).result = .error m) ∧
    update_text n eid t = update_text n' eid t ∧
    replace_slide_elements n ups = replace_slide_elements n' ups := by
  have hget : get_slide slides n = .error ("Slide " ++ toString n ++ " not found (presentation has "
      ++ toString slides.length ++ " slides)") := by
    simp only [get_slide]
    rw [if_pos h]
  have hadd : add_element slides n espec
      = { batches := [], result := .error ("Slide " ++ toString n ++ " not found") } := by
    simp only [add_element]
    rw [if_pos h]
  have hdup : duplicate_slide slides n ins
      = { batches := [], result := .error ("Source slide " ++ toString n ++ " not found") } := by
    simp only [duplicate_slide]
    rw [if_pos h]
  exact ⟨⟨_, hget⟩, by rw [hadd], ⟨_, by rw [hadd]⟩, by rw [hdup], ⟨_, by rw [hdup]⟩, rfl, rfl⟩

/-- C6, witness for the amended theorem at slide number 0 on a one-slide
presentation. -/
theorem C6_amended_witness :
    (∃ m, get_slide [⟨"s1", []⟩] 0 = .error m) ∧
    (add_element [⟨"s1", []⟩] 0 ⟨some "table", none, none, none, none⟩).batches = [] ∧
    (∃ m, (add_element [⟨"s1", []⟩] 0 ⟨some "table", none, none, none, none⟩).result = .error m) ∧
    (duplicate_slide [⟨"s1", []⟩] 0 3).batches = [] ∧
    (∃ m, (duplicate_slide [⟨"s1", []⟩] 0 3).result = .error m) ∧
    update_text 0 "e" "t" = update_text 9 "e" "t" ∧
    replace_slide_elements 0 [] = replace_slide_elements 9 [] :=
  C6_amended_validation [⟨"s1", []⟩] 0 (by decide) "e" "t"
    ⟨some "table", none, none, none, none⟩ 3 9 []

/-- C7: for a valid source slide and ANY requested insertion position,
`duplicate_slide` submits exactly one batch holding exactly one
duplicate-object request (no move or reorder request exists in the model's
vocabulary for this call), reports `newSlideNumber = source + 1`
unconditionally, and its whole outcome is independent of `insert_at`. -/
theorem C7_duplicate_slide_behavior (slides : List Slide) (source insert_at insert_at' : Int)
    (h1 : 1 ≤ source) (h2 : source ≤ (slides.length : Int)) :
    (∃ oid, (duplicate_slide slides source insert_at).batches
      = [[Request.duplicateObject oid]]) ∧
    (duplicate_slide slides source insert_at).result = .ok (true, source + 1) ∧
    duplicate_slide slides source insert_at = duplicate_slide slides source insert_at' := by
  have hc : ¬ (source < 1 ∨ source > (slides.length : Int)) := by omega
  have hd : duplicate_slide slides source insert_at
      = { batches := [[Request.duplicateObject
            ((slides.getD (source - 1).toNat ⟨"", []⟩).objectId)]]
          result := .ok (true, source + 1) } := by
    simp only [duplicate_slide]
    rw [if_neg hc]
  exact ⟨⟨_, by rw [hd]⟩, by rw [hd], rfl⟩

/-- The five-slide presentation of the C7 witness. -/
def c7_slides : List Slide :=
  [⟨"s1", []⟩, ⟨"s2", []⟩, ⟨"s3", []⟩, ⟨"s4", []⟩, ⟨"s5", []⟩]

/-- C7, witness: `duplicate_slide(source=2, insertAt=5)` on five slides yields
`newSlideNumber = 3` and the same outcome as `insertAt = 7`. -/
theorem C7_witness :
    (∃ oid, (duplicate_slide c7_slides 2 5).batches = [[Request.duplicateObject oid]]) ∧
    (duplicate_slide c7_slides 2 5).result = .ok (true, 3) ∧
    duplicate_slide c7_slides 2 5 = duplicate_slide c7_slides 2 7 := by
  have h := C7_duplicate_slide_behavior c7_slides 2 5 7 (by decide) (by decide)
  exact ⟨h.1, by rw [h.2.1]; simp, h.2.2⟩

/-- C8: the emitted record's `format` is `bullets` exactly when at least one
text element of the shape carries a bullet descriptor on its paragraph marker,
and `plain` exactly otherwise — the flag is per-shape, not per-paragraph. -/
theorem C8_bullets_format (oid : String) (tr : Option Transform) (s : Shape) (rec : TextRec)
    (h : process_element (PageElement.shape oid tr s)
      = ProcResult.single (Simplified.text rec)) :
    (rec.format = "bullets" ↔ ∃ te ∈ shapeTextElems s, markerHasBullet te = true) ∧
    (rec.format = "plain" ↔ ¬ ∃ te ∈ shapeTextElems s, markerHasBullet te = true) := by
  have hb : has_bullets s = true ↔ ∃ te ∈ shapeTextElems s, markerHasBullet te = true := by
    simp [has_bullets, List.any_eq_true]
  by_cases hs : is_text_shape s = true
  · have h2 : mkTextRec oid tr s = rec := by
      simp only [process_element, hs, if_true] at h
      injection h with h1
      injection h1 with h2
    have hfmt : rec.format = (if has_bullets s then "bullets" else "plain") := by
      rw [← h2]
      rfl
    rw [hfmt]
    by_cases hbul : has_bullets s = true
    · have hex := hb.mp hbul
      rw [if_pos hbul]
      exact ⟨⟨fun _ => hex, fun _ => rfl⟩,
        ⟨fun hpl => absurd hpl (by decide), fun hn => absurd hex hn⟩⟩
    · have hnex : ¬ ∃ te ∈ shapeTextElems s, markerHasBullet te = true :=
        fun hex => hbul (hb.mpr hex)
      rw [if_neg hbul]
      exact ⟨⟨fun hpl => absurd hpl (by decide), fun hex => absurd hex hnex⟩,
        ⟨fun _ => hnex, fun _ => rfl⟩⟩
  · simp only [process_element] at h
    rw [if_neg hs] at h
    simp at h

/-- A bulleted text shape for the C8 witness: one run plus a paragraph marker
carrying a bullet descriptor. -/
def c8_shape : Shape :=
  ⟨"TEXT_BOX", some ⟨[⟨some ⟨"item"⟩, some ⟨⟨some ⟨none, some 0, some "-"⟩⟩⟩⟩]⟩, none⟩

/-- C8, witness at a concrete bulleted shape. -/
theorem C8_witness :
    ((mkTextRec "b1" none c8_shape).format = "bullets" ↔
      ∃ te ∈ shapeTextElems c8_shape, markerHasBullet te = true) ∧
    ((mkTextRec "b1" none c8_shape).format = "plain" ↔
      ¬ ∃ te ∈ shapeTextElems c8_shape, markerHasBullet te = true) :=
  C8_bullets_format "b1" none c8_shape (mkTextRec "b1" none c8_shape) (by
    simp only [process_element]
    rw [if_pos (by decide : is_text_shape c8_shape = true)])

/-- C9: on a valid slide number, a malformed element spec — type `image` with
a missing or empty URL, or any type other than `image` / `table` — makes
`add_element` fail with the invalid-parameters error and submit no batch. -/
theorem C9_add_element_invalid (slides : List Slide) (n : Int) (e : ElementSpec)
    (hn : 1 ≤ n ∧ n ≤ (slides.length : Int))
    (hbad : (e.type_ = some "image" ∧ (e.url = none ∨ e.url = some "")) ∨
            (e.type_ ≠ some "image" ∧ e.type_ ≠ some "table")) :
    (add_element slides n e).batches = [] ∧
    (add_element slides n e).result = .error "Unsupported element type or missing parameters" := by
  obtain ⟨hn1, hn2⟩ := hn
  have hc : ¬ (n < 1 ∨ n > (slides.length : Int)) := by omega
  have hfalse1 : (e.type_ == some "image" && pyTruthyStr e.url) = false := by
    rcases hbad with ⟨ht, hu⟩ | ⟨ht, _⟩
    · rcases hu with hu | hu <;> simp [pyTruthyStr, hu]
    · simp [beq_eq_false_iff_ne.mpr ht]
  have hfalse2 : (e.type_ == some "table") = false := by
    rcases hbad with ⟨ht, _⟩ | ⟨_, ht⟩
    · rw [ht]
      decide
    · simp [beq_eq_false_iff_ne.mpr ht]
  constructor
  · simp only [add_element]
    rw [if_neg hc]
    simp [hfalse1, hfalse2]
  · simp only [add_element]
    rw [if_neg hc]
    simp [hfalse1, hfalse2]

/-- C9, witness: an unsupported type `video` on a valid slide. -/
theorem C9_witness :
    (add_element [⟨"s1", []⟩] 1 ⟨some "video", none, none, none, none⟩).batches = [] ∧
    (add_element [⟨"s1", []⟩] 1 ⟨some "video", none, none, none, none⟩).result
      = .error "Unsupported element type or missing parameters" :=
  C9_add_element_invalid [⟨"s1", []⟩] 1 ⟨some "video", none, none, none, none⟩
    ⟨by decide, by decide⟩ (Or.inr ⟨by decide, by decide⟩)

/-- C10: `replace_slide_elements` always reports success with
`updated = length of the FULL input list`; a pair missing its id or its text
contributes no request to the batch; and when every pair is invalid
(the empty list included) no batch is submitted at all. -/
theorem C10_replace_semantics (n : Int) (es : List ElemUpdate) (e : ElemUpdate)
    (tl : List ElemUpdate) (hbad : e.id = none ∨ e.text = none) :
    (replace_slide_elements n es).result = .ok (true, es.length) ∧
    replace_requests (e :: tl) = replace_requests tl ∧
    ((∀ x ∈ es, x.id = none ∨ x.text = none) →
      (replace_slide_elements n es).batches = []) := by
  refine ⟨rfl, ?_, ?_⟩
  · rcases hbad with h | h
    · simp [replace_requests, h]
    · cases hi : e.id with
      | none => simp [replace_requests, hi]
      | some i => simp [replace_requests, hi, h]
  · intro hall
    have hnil := replace_requests_nil_of_all_bad es hall
    simp [replace_slide_elements, hnil]

/-- C10, witness: an empty update list (success, zero-count, no batch) and a
pair missing its id (contributes nothing). -/
theorem C10_witness :
    (replace_slide_elements 7 ([] : List ElemUpdate)).result = .ok (true, 0) ∧
    replace_requests (⟨none, some "x"⟩ :: [⟨some "a", some "b"⟩])
      = replace_requests [⟨some "a", some "b"⟩] ∧
    ((∀ x ∈ ([] : List ElemUpdate), x.id = none ∨ x.text = none) →
      (replace_slide_elements 7 ([] : List ElemUpdate)).batches = []) := by
  have h := C10_replace_semantics 7 [] ⟨none, some "x"⟩ [⟨some "a", some "b"⟩] (Or.inl rfl)
  exact ⟨h.1, h.2.1, h.2.2⟩
